import Mathlib

/-!
Verification development for the Team-H multi-agent orchestration runtime.

The definitions below are a shallow embedding of the orchestration core:

* `src/agents/graph/state.py` — `TeamHState`, `AgentRouting`;
* `src/agents/graph/nodes.py` — `_router_node`, `_execute_manager_node`,
  `_detect_handoff`;
* `src/agents/graph/graph.py` — `invoke` (per-request initial state),
  `_build_graph` (registered nodes), `_create_handoff_tools`;
* `src/agents/middlewares.py` — `ToolErrorHandlerMiddleware.wrap_tool_call`;
* `src/agents/manager_m.py` — the `add_memory` tool body;
* `src/api/main.py` — the terminal phase of `generate_sse_stream`.

External collaborators (the LLM provider, the agent inner loop, the
checkpoint store) are passed in as explicit arguments: a manager node
invocation receives the message list produced by the agent, and the router
receives the structured routing result the LLM would return.
-/

/-- Python substring containment (`needle in hay`) on strings. -/
def strContains (hay needle : String) : Bool :=
  decide (needle.data <:+: hay.data)

/-- Message roles as exposed by `msg.type` on LangChain messages
(`"human"`, `"ai"`, `"tool"`, `"system"`). -/
inductive MsgType where
  | human
  | ai
  | tool
  | system
deriving DecidableEq, Repr

/-- A conversation message: role, content, the message id used by the
log reducer, and (for tool messages) the tool-call id it answers. -/
structure Message where
  mtype : MsgType
  content : String
  id : String := ""
  tool_call_id : String := ""
deriving DecidableEq, Repr

/-- The graph state (`TeamHState` in `state.py`): message log plus scalar
fields.  `handoff_count` is a Python `int`, embedded as `Int`. -/
structure TeamHState where
  messages : List Message
  next_agent : String := "router"
  user_id : String := "default_user"
  routing_reason : String := ""
  handoff_count : Int := 0
  current_agent : Option String := none
  last_active_manager : Option String := none
deriving DecidableEq, Repr

/-- A partial state update as carried by a LangGraph `Command`: only the
fields present in the update dict are set. -/
structure StateUpdate where
  messages : List Message := []
  next_agent : Option String := none
  user_id : Option String := none
  routing_reason : Option String := none
  handoff_count : Option Int := none
  current_agent : Option (Option String) := none
  last_active_manager : Option (Option String) := none
deriving DecidableEq, Repr

/-- Modelled from the spec: the message-log reducer attached to
`TeamHState.messages` (`Annotated[list, add_messages]` in `state.py`) is
LangGraph library code that is not part of this repository.  Per the spec,
new messages are appended to the existing log and never reordered; a node
may explicitly request replacement of an existing entry by reusing its
message id, in which case that entry is overwritten in place rather than
appended. -/
def add_messages (existing new_partial : List Message) : List Message :=
  new_partial.foldl
    (fun acc m =>
      if acc.any (fun e => e.id = m.id) then
        acc.map (fun e => if e.id = m.id then m else e)
      else
        acc ++ [m])
    existing

/-- The state reducer: messages are merged via `add_messages`; a scalar
field present in the partial update overwrites the existing value. -/
def merge (s : TeamHState) (u : StateUpdate) : TeamHState :=
  { messages := add_messages s.messages u.messages
    next_agent := u.next_agent.getD s.next_agent
    user_id := u.user_id.getD s.user_id
    routing_reason := u.routing_reason.getD s.routing_reason
    handoff_count := u.handoff_count.getD s.handoff_count
    current_agent := u.current_agent.getD s.current_agent
    last_active_manager := u.last_active_manager.getD s.last_active_manager }

/-- A LangGraph `Command`: the next node plus a partial state update. -/
structure Command where
  goto : String
  update : StateUpdate
deriving DecidableEq, Repr

/-- Per-message handoff check used by `_detect_handoff`: a tool message is
inspected for the bracketed sentinels, in the fixed order I, M, S, T. -/
def msg_handoff (msg : Message) : Option String :=
  if msg.mtype = MsgType.tool then
    let content := msg.content
    if strContains content "[HANDOFF_TO_I]" then some "i"
    else if strContains content "[HANDOFF_TO_M]" then some "m"
    else if strContains content "[HANDOFF_TO_S]" then some "s"
    else if strContains content "[HANDOFF_TO_T]" then some "t"
    else none
  else none

/-- `_detect_handoff` in `nodes.py`: only the messages past
`original_msg_count` are inspected, newest first; the first tool message
carrying a sentinel decides the target. -/
def detect_handoff (result_messages : List Message) (original_msg_count : Nat) :
    Option String :=
  let new_messages := result_messages.drop original_msg_count
  new_messages.reverse.findSome? msg_handoff

/-- `_execute_manager_node` in `nodes.py`, after the agent invocation:
`result_messages` is `result["messages"]` returned by the manager agent. -/
def execute_manager_node (state : TeamHState) (manager_key : String)
    (result_messages : List Message) (max_handoffs : Int) : Command :=
  let original_msg_count := state.messages.length
  let new_messages := result_messages.drop original_msg_count
  let handoff_count := state.handoff_count
  let handoff_target := detect_handoff result_messages original_msg_count
  let next_agent :=
    if handoff_count ≥ max_handoffs then "end"
    else
      match handoff_target with
      | some t => t
      | none => "end"
  let goto := if next_agent = "end" then "END" else "manager_" ++ next_agent
  let last_active := if next_agent ≠ "end" then next_agent else manager_key
  { goto := goto
    update :=
      { messages := new_messages
        handoff_count := some (handoff_count + (if next_agent ≠ "end" then 1 else 0))
        current_agent := some (some manager_key)
        last_active_manager := some (some last_active) } }

/-- The router decision schema (`AgentRouting` in `state.py`): the
structured output is constrained to the literal identifiers
`"i" | "m" | "s" | "t"`. -/
structure AgentRouting where
  target_agent : String
  reason : String
deriving DecidableEq, Repr

/-- The identifiers admitted by the `AgentRouting` structured-output
schema (the `Literal` type), independent of which managers are enabled. -/
def AgentRouting.targets : List String := ["i", "m", "s", "t"]

/-- A routing result respects the structured-output constraint. -/
def AgentRouting.valid (r : AgentRouting) : Prop :=
  r.target_agent ∈ AgentRouting.targets

instance (r : AgentRouting) : Decidable r.valid := by
  unfold AgentRouting.valid; infer_instance

/-- A router node result: the emitted `Command` plus whether the router
LLM was invoked to produce it. -/
structure RouterResult where
  command : Command
  llm_invoked : Bool
deriving DecidableEq, Repr

/-- The first-turn branch of `_router_node`: invoke the router LLM with
structured output and goto the chosen manager. -/
def router_llm_branch (routing : AgentRouting) : RouterResult :=
  { command :=
      { goto := "manager_" ++ routing.target_agent
        update :=
          { routing_reason := some routing.reason
            current_agent := some (some routing.target_agent) } }
    llm_invoked := true }

/-- `_router_node` in `nodes.py`.  Python truthiness of
`state.get("last_active_manager")`: `None` and `""` both select the
first-turn branch.  `llm_routing` is the structured result the router LLM
would return if invoked. -/
def router_node (state : TeamHState) (llm_routing : AgentRouting) : RouterResult :=
  match state.last_active_manager with
  | some last_active =>
      if last_active ≠ "" then
        { command :=
            { goto := "manager_" ++ last_active
              update :=
                { routing_reason := some "Continuing with last active manager"
                  current_agent := some (some last_active) } }
          llm_invoked := false }
      else router_llm_branch llm_routing
  | none => router_llm_branch llm_routing

/-- Which managers are enabled, as computed in `TeamHGraph.__init__`
(`enable_manager_i` also requires a Home Assistant token,
`enable_manager_s` also requires a Tavily key; both are folded into the
boolean here). -/
structure GraphConfig where
  enable_manager_i : Bool
  enable_manager_m : Bool
  enable_manager_s : Bool
  enable_manager_t : Bool
deriving DecidableEq, Repr

/-- The enabled agent identifiers for a configuration. -/
def enabled_agents (c : GraphConfig) : List String :=
  (if c.enable_manager_i then ["i"] else [])
    ++ (if c.enable_manager_m then ["m"] else [])
    ++ (if c.enable_manager_s then ["s"] else [])
    ++ (if c.enable_manager_t then ["t"] else [])

/-- The nodes registered by `_build_graph`: the router plus one
`manager_<x>` node per enabled manager. -/
def graph_nodes (c : GraphConfig) : List String :=
  ["router"]
    ++ (if c.enable_manager_i then ["manager_i"] else [])
    ++ (if c.enable_manager_m then ["manager_m"] else [])
    ++ (if c.enable_manager_s then ["manager_s"] else [])
    ++ (if c.enable_manager_t then ["manager_t"] else [])

/-- Handler of the `handoff_to_manager_i` tool in `_create_handoff_tools`. -/
def handoff_to_manager_i (reason : String) : String :=
  "[HANDOFF_TO_I] " ++ reason

/-- Handler of the `handoff_to_manager_m` tool in `_create_handoff_tools`. -/
def handoff_to_manager_m (reason : String) : String :=
  "[HANDOFF_TO_M] " ++ reason

/-- Handler of the `handoff_to_manager_s` tool in `_create_handoff_tools`. -/
def handoff_to_manager_s (reason : String) : String :=
  "[HANDOFF_TO_S] " ++ reason

/-- Handler of the `handoff_to_manager_t` tool in `_create_handoff_tools`. -/
def handoff_to_manager_t (reason : String) : String :=
  "[HANDOFF_TO_T] " ++ reason

/-- One manager-node invocation as seen by the executor: the key of the
manager that runs and the full message list its agent returns. -/
structure StepInput where
  manager_key : String
  result_messages : List Message
deriving DecidableEq, Repr

/-- Applying a node `Command` to the state via the reducer. -/
def apply_command (s : TeamHState) (c : Command) : TeamHState :=
  merge s c.update

/-- The executor loop over manager nodes for one request: run a manager
node, fold its update into the state, stop on `END`. -/
def run_managers (max_handoffs : Int) (s : TeamHState) :
    List StepInput → TeamHState
  | [] => s
  | inp :: rest =>
      let cmd := execute_manager_node s inp.manager_key inp.result_messages max_handoffs
      let s2 := apply_command s cmd
      if cmd.goto = "END" then s2 else run_managers max_handoffs s2 rest

/-- The per-request initial update built by `TeamHGraph.invoke` (and by
the `/chat/stream` endpoint): the incoming user message is appended to the
checkpointed log and `handoff_count` is reset to `0`. -/
def start_request (prev : TeamHState) (user_message : Message) : TeamHState :=
  merge prev { messages := [user_message], handoff_count := some 0 }

/-- A tool-call request as seen by `wrap_tool_call`
(`request.tool_call["name"]` and `request.tool_call["id"]`). -/
structure ToolCallRequest where
  name : String
  call_id : String
deriving DecidableEq, Repr

/-- Outcome of running the wrapped tool handler: a result message, or a
raised exception carrying `str(e)`. -/
inductive HandlerOutcome where
  | ok (result : Message)
  | failure (error : String)
deriving DecidableEq, Repr

/-- The default `error_message_template` of `ToolErrorHandlerMiddleware`,
with `{tool_name}` and `{error}` substituted. -/
def error_message_template (tool_name error : String) : String :=
  "⚠️ Tool \x27" ++ (tool_name ++ ("\x27 encountered an error.\nError: "
    ++ (error ++ "\nPlease check your input and try again, or use a different approach.")))

/-- `ToolErrorHandlerMiddleware.wrap_tool_call`: a handler exception is
caught and converted into a tool message answering the same call id. -/
def wrap_tool_call (include_error_details : Bool) (request : ToolCallRequest)
    (handler : HandlerOutcome) : Message :=
  match handler with
  | .ok result => result
  | .failure e =>
      let error_msg :=
        if include_error_details then error_message_template request.name e
        else error_message_template request.name "An error occurred"
      { mtype := MsgType.tool, content := error_msg, tool_call_id := request.call_id }

/-- The body of the `add_memory` tool in `manager_m.py`: the memory-store
call either returns a result string or raises, and the raised error is
converted into the tool result text. -/
def add_memory (mem_result : Except String String) : String :=
  match mem_result with
  | .ok result => "✅ Memory added successfully: " ++ result
  | .error e => "❌ Error adding memory: " ++ e

/-- An interrupt record surfaced by a suspended task
(`task.interrupts[i].value`). -/
structure InterruptRecord where
  value : String
deriving DecidableEq, Repr

/-- How one SSE stream finishes, as observed by the tail of
`generate_sse_stream`: the event loop ran to completion and the final
snapshot either has no pending node (`completed`, with the `done` payload
fields read from the snapshot) or pending nodes with the collected
interrupts (`suspended`); or an exception surfaced (`failed`). -/
inductive StreamOutcome where
  | completed (messages_count : Nat) (current_agent : Option String) (handoff_count : Int)
  | suspended (interrupts : List InterruptRecord)
  | failed (error : String)
deriving DecidableEq, Repr

/-- Terminal SSE events. -/
inductive SSEEvent where
  | done (messages_count : Nat) (current_agent : Option String) (handoff_count : Int)
  | interrupt (record : InterruptRecord) (thread_id : String)
  | error (error : String)
deriving DecidableEq, Repr

/-- The terminal phase of `generate_sse_stream` in `api/main.py`: after
the event loop, emit `done` on normal completion, the first collected
interrupt when suspended (nothing when the interrupt list is empty), and
`error` from the surrounding exception handler. -/
def terminal_events (thread_id : String) : StreamOutcome → List SSEEvent
  | .completed n a h => [SSEEvent.done n a h]
  | .suspended interrupts =>
      match interrupts with
      | [] => []
      | i :: _ => [SSEEvent.interrupt i thread_id]
  | .failed e => [SSEEvent.error e]

/-! ## Helper lemmas -/

theorem strContains_intro (hay needle s t : String) (h : hay = s ++ needle ++ t) :
    strContains hay needle = true := by
  subst h
  simp only [strContains, decide_eq_true_eq, String.data_append]
  exact ⟨s.data, t.data, rfl⟩

theorem strContains_left (needle t : String) :
    strContains (needle ++ t) needle = true := by
  simp only [strContains, decide_eq_true_eq, String.data_append]
  exact ⟨[], t.data, by simp⟩

theorem strContains_right (s needle : String) :
    strContains (s ++ needle) needle = true := by
  simp only [strContains, decide_eq_true_eq, String.data_append]
  exact ⟨s.data, [], by simp⟩

theorem strContains_lit (pre needle sp reason : String) (h : pre = needle ++ sp) :
    strContains (pre ++ reason) needle = true := by
  subst h
  rw [String.append_assoc]
  exact strContains_left _ _

theorem msg_handoff_mem (m : Message) (t : String) (h : msg_handoff m = some t) :
    t ∈ AgentRouting.targets := by
  simp only [msg_handoff] at h
  split at h
  · split_ifs at h <;> simp_all [AgentRouting.targets]
  · exact absurd h (by simp)

theorem detect_handoff_ne_end (msgs : List Message) (n : Nat) (t : String)
    (h : detect_handoff msgs n = some t) : t ≠ "end" := by
  simp only [detect_handoff] at h
  obtain ⟨m, _, hf⟩ := List.exists_of_findSome?_eq_some h
  have hmem := msg_handoff_mem m t hf
  simp only [AgentRouting.targets, List.mem_cons, List.mem_singleton] at hmem
  rcases hmem with h1 | h1 | h1 | h1 | h1 <;> first | (subst h1; decide) | simp_all

theorem execute_manager_node_of_capped (state : TeamHState) (key : String)
    (result : List Message) (maxh : Int) (h : state.handoff_count ≥ maxh) :
    execute_manager_node state key result maxh =
      { goto := "END"
        update :=
          { messages := result.drop state.messages.length
            handoff_count := some state.handoff_count
            current_agent := some (some key)
            last_active_manager := some (some key) } } := by
  simp [execute_manager_node, h]

theorem execute_manager_node_of_no_target (state : TeamHState) (key : String)
    (result : List Message) (maxh : Int) (h1 : ¬ state.handoff_count ≥ maxh)
    (h2 : detect_handoff result state.messages.length = none) :
    execute_manager_node state key result maxh =
      { goto := "END"
        update :=
          { messages := result.drop state.messages.length
            handoff_count := some state.handoff_count
            current_agent := some (some key)
            last_active_manager := some (some key) } } := by
  simp [execute_manager_node, h1, h2]

theorem execute_manager_node_of_target (state : TeamHState) (key : String)
    (result : List Message) (maxh : Int) (t : String)
    (h1 : ¬ state.handoff_count ≥ maxh)
    (h2 : detect_handoff result state.messages.length = some t) :
    execute_manager_node state key result maxh =
      { goto := "manager_" ++ t
        update :=
          { messages := result.drop state.messages.length
            handoff_count := some (state.handoff_count + 1)
            current_agent := some (some key)
            last_active_manager := some (some t) } } := by
  have hne : t ≠ "end" := detect_handoff_ne_end result state.messages.length t h2
  simp [execute_manager_node, h1, h2, hne]

-- quick sanity checks while developing
example : detect_handoff
    [⟨MsgType.tool, "[HANDOFF_TO_M] old", "1", "c1"⟩,
     ⟨MsgType.ai, "done", "2", ""⟩] 1 = none := by decide

example : detect_handoff
    [⟨MsgType.ai, "x", "1", ""⟩,
     ⟨MsgType.tool, "[HANDOFF_TO_S] go", "2", "c2"⟩] 0 = some "s" := by decide

example :
    (execute_manager_node { messages := [⟨MsgType.human, "hi", "1", ""⟩] } "m"
      [⟨MsgType.human, "hi", "1", ""⟩, ⟨MsgType.tool, "[HANDOFF_TO_S] go", "2", "c"⟩]
      5).goto = "manager_s" := by decide

example :
    (router_node { messages := [], last_active_manager := some "s" }
      ⟨"i", "r"⟩).command.goto = "manager_s" := by decide

/-! ## Claim theorems -/

/-- C1: After a manager node finishes a step (not suspended), handoff
detection inspects only the messages appended past the pre-invocation
count, scanning newest to oldest; the first new tool message carrying a
sentinel determines the next node, and with no sentinel among the new
messages the next node is `END`.  A sentinel in an older message never
causes re-routing: the detection result is the same for any prefix of old
messages. -/
theorem C1_handoff_detector_scans_only_new_messages
    (old new : List Message) (key : String) (maxh : Int) (s : TeamHState)
    (hs : s.messages = old) (hcap : s.handoff_count < maxh) :
    detect_handoff (old ++ new) old.length = new.reverse.findSome? msg_handoff
    ∧ (∀ old2 : List Message,
        detect_handoff (old2 ++ new) old2.length = new.reverse.findSome? msg_handoff)
    ∧ (new.reverse.findSome? msg_handoff = none →
        (execute_manager_node s key (old ++ new) maxh).goto = "END")
    ∧ (∀ t, new.reverse.findSome? msg_handoff = some t →
        (execute_manager_node s key (old ++ new) maxh).goto = "manager_" ++ t) := by
  have hdrop : ∀ o : List Message,
      detect_handoff (o ++ new) o.length = new.reverse.findSome? msg_handoff := by
    intro o
    unfold detect_handoff
    rw [List.drop_left]
  have hnotge : ¬ s.handoff_count ≥ maxh := not_le.mpr hcap
  refine ⟨hdrop old, hdrop, ?_, ?_⟩
  · intro hnone
    have hdet : detect_handoff (old ++ new) s.messages.length = none := by
      rw [hs, hdrop old]; exact hnone
    rw [execute_manager_node_of_no_target s key (old ++ new) maxh hnotge hdet]
  · intro t hsome
    have hdet : detect_handoff (old ++ new) s.messages.length = some t := by
      rw [hs, hdrop old]; exact hsome
    rw [execute_manager_node_of_target s key (old ++ new) maxh t hnotge hdet]

theorem C1_witness :
    ({ messages := [Message.mk MsgType.human "hi" "1" ""] } : TeamHState).messages
        = [Message.mk MsgType.human "hi" "1" ""]
    ∧ ({ messages := [Message.mk MsgType.human "hi" "1" ""] } : TeamHState).handoff_count < 5
    ∧ (execute_manager_node { messages := [Message.mk MsgType.human "hi" "1" ""] } "m"
        ([Message.mk MsgType.human "hi" "1" ""]
          ++ [Message.mk MsgType.tool "[HANDOFF_TO_S] go" "2" "c1"]) 5).goto
        = "manager_" ++ "s" :=
  ⟨rfl, by decide,
    (C1_handoff_detector_scans_only_new_messages
        [Message.mk MsgType.human "hi" "1" ""]
        [Message.mk MsgType.tool "[HANDOFF_TO_S] go" "2" "c1"]
        "m" 5 { messages := [Message.mk MsgType.human "hi" "1" ""] }
        rfl (by decide)).2.2.2 "s" (by decide)⟩

/-- C5: On termination of a manager step, `current_agent` is set to the
manager that just ran; `last_active_manager` is set to the handoff target
when a handoff occurred, and to the manager that just ran otherwise
(including when a detected handoff is suppressed by the cap). -/
theorem C5_state_update_on_termination (s : TeamHState) (key : String)
    (result : List Message) (maxh : Int) :
    (execute_manager_node s key result maxh).update.current_agent = some (some key)
    ∧ (s.handoff_count < maxh → ∀ t, detect_handoff result s.messages.length = some t →
        (execute_manager_node s key result maxh).update.last_active_manager
          = some (some t))
    ∧ (detect_handoff result s.messages.length = none →
        (execute_manager_node s key result maxh).update.last_active_manager
          = some (some key))
    ∧ (s.handoff_count ≥ maxh →
        (execute_manager_node s key result maxh).update.last_active_manager
          = some (some key)) := by
  refine ⟨?_, ?_, ?_, ?_⟩
  · by_cases hge : s.handoff_count ≥ maxh
    · rw [execute_manager_node_of_capped s key result maxh hge]
    · rcases hdet : detect_handoff result s.messages.length with _ | t
      · rw [execute_manager_node_of_no_target s key result maxh hge hdet]
      · rw [execute_manager_node_of_target s key result maxh t hge hdet]
  · intro hcap t hdet
    rw [execute_manager_node_of_target s key result maxh t (not_le.mpr hcap) hdet]
  · intro hdet
    by_cases hge : s.handoff_count ≥ maxh
    · rw [execute_manager_node_of_capped s key result maxh hge]
    · rw [execute_manager_node_of_no_target s key result maxh hge hdet]
  · intro hge
    rw [execute_manager_node_of_capped s key result maxh hge]

theorem C5_witness :
    (execute_manager_node { messages := [] } "m"
        [Message.mk MsgType.tool "[HANDOFF_TO_S] go" "1" "c1"] 5).update.current_agent
      = some (some "m")
    ∧ (0 : Int) < 5
    ∧ (execute_manager_node { messages := [] } "m"
        [Message.mk MsgType.tool "[HANDOFF_TO_S] go" "1" "c1"] 5).update.last_active_manager
      = some (some "s") :=
  ⟨(C5_state_update_on_termination { messages := [] } "m"
      [Message.mk MsgType.tool "[HANDOFF_TO_S] go" "1" "c1"] 5).1,
   by decide,
   (C5_state_update_on_termination { messages := [] } "m"
      [Message.mk MsgType.tool "[HANDOFF_TO_S] go" "1" "c1"] 5).2.1
      (by decide) "s" (by decide)⟩

theorem step_handoff_le (s : TeamHState) (key : String) (result : List Message)
    (maxh : Int) (h : s.handoff_count ≤ maxh) :
    (apply_command s (execute_manager_node s key result maxh)).handoff_count ≤ maxh := by
  by_cases hge : s.handoff_count ≥ maxh
  · rw [execute_manager_node_of_capped s key result maxh hge]
    simpa [apply_command, merge] using h
  · rcases hdet : detect_handoff result s.messages.length with _ | t
    · rw [execute_manager_node_of_no_target s key result maxh hge hdet]
      simpa [apply_command, merge] using h
    · rw [execute_manager_node_of_target s key result maxh t hge hdet]
      simp only [apply_command, merge, Option.getD_some]
      omega

theorem run_managers_handoff_le (maxh : Int) (inputs : List StepInput)
    (s : TeamHState) (h : s.handoff_count ≤ maxh) :
    (run_managers maxh s inputs).handoff_count ≤ maxh := by
  induction inputs generalizing s with
  | nil => exact h
  | cons inp rest ih =>
      simp only [run_managers]
      split
      · exact step_handoff_le s inp.manager_key inp.result_messages maxh h
      · exact ih _ (step_handoff_le s inp.manager_key inp.result_messages maxh h)

/-- C2: For every completed request, `handoff_count ≤ max_handoffs`: the
per-request initial update resets it to `0`, each inter-agent transfer
(a step whose goto is not `END`) increments it by exactly one, and a
manager step that starts with `handoff_count` at or above the cap is
forced to `END` regardless of any detected handoff. -/
theorem C2_handoff_bound (prev : TeamHState) (user_message : Message)
    (maxh : Int) (hmax : 0 ≤ maxh) (inputs : List StepInput)
    (s : TeamHState) (key : String) (result : List Message) :
    (start_request prev user_message).handoff_count = 0
    ∧ (run_managers maxh (start_request prev user_message) inputs).handoff_count ≤ maxh
    ∧ ((execute_manager_node s key result maxh).goto ≠ "END" →
        (execute_manager_node s key result maxh).update.handoff_count
          = some (s.handoff_count + 1))
    ∧ (s.handoff_count ≥ maxh →
        (execute_manager_node s key result maxh).goto = "END") := by
  refine ⟨rfl, ?_, ?_, ?_⟩
  · exact run_managers_handoff_le maxh inputs (start_request prev user_message)
      (by rw [(rfl : (start_request prev user_message).handoff_count = 0)]; exact hmax)
  · intro hgoto
    by_cases hge : s.handoff_count ≥ maxh
    · exact absurd (by rw [execute_manager_node_of_capped s key result maxh hge]) hgoto
    · rcases hdet : detect_handoff result s.messages.length with _ | t
      · exact absurd
          (by rw [execute_manager_node_of_no_target s key result maxh hge hdet]) hgoto
      · rw [execute_manager_node_of_target s key result maxh t hge hdet]
  · intro hge
    rw [execute_manager_node_of_capped s key result maxh hge]

theorem C2_witness :
    (0 : Int) ≤ 5
    ∧ (run_managers 5
        (start_request { messages := [] } (Message.mk MsgType.human "hi" "1" ""))
        [StepInput.mk "m"
          [Message.mk MsgType.human "hi" "1" "",
           Message.mk MsgType.tool "[HANDOFF_TO_S] go" "2" "c1"]]).handoff_count ≤ 5 :=
  ⟨by decide,
   (C2_handoff_bound { messages := [] } (Message.mk MsgType.human "hi" "1" "") 5
      (by decide)
      [StepInput.mk "m"
        [Message.mk MsgType.human "hi" "1" "",
         Message.mk MsgType.tool "[HANDOFF_TO_S] go" "2" "c1"]]
      { messages := [] } "m" []).2.1⟩

/-- C3 counterexample: with a non-empty `last_active_manager` the router
does take the sticky branch, but the `routing_reason` it writes is the
capitalized string `"Continuing with last active manager"`, not the
claimed `"continuing with last active manager"`. -/
theorem C3_counterexample_routing_reason_capitalized :
    (router_node { messages := [], last_active_manager := some "s" }
        (AgentRouting.mk "i" "r")).command.update.routing_reason
      ≠ some "continuing with last active manager"
    ∧ (router_node { messages := [], last_active_manager := some "s" }
        (AgentRouting.mk "i" "r")).command.update.routing_reason
      = some "Continuing with last active manager" := by
  constructor
  · decide
  · decide

/-- C3 (amended): whenever the router runs with a non-empty
`last_active_manager`, it emits a goto targeting that agent without
invoking the LLM — the result is independent of whatever the LLM would
return — and sets `routing_reason` to the capitalized string
`"Continuing with last active manager"`; hence on the second of two
successive requests on a thread whose first terminated at agent A, the
router selects A with no LLM call. -/
theorem C3_sticky_routing_amended (s : TeamHState) (la : String)
    (llm1 llm2 : AgentRouting)
    (h1 : s.last_active_manager = some la) (h2 : la ≠ "") :
    (router_node s llm1).command.goto = "manager_" ++ la
    ∧ (router_node s llm1).command.update.routing_reason
        = some "Continuing with last active manager"
    ∧ (router_node s llm1).command.update.current_agent = some (some la)
    ∧ (router_node s llm1).llm_invoked = false
    ∧ router_node s llm1 = router_node s llm2 := by
  simp [router_node, h1, h2]

theorem C3_witness :
    ({ messages := [], last_active_manager := some "s" } : TeamHState).last_active_manager
        = some "s"
    ∧ "s" ≠ ""
    ∧ (router_node { messages := [], last_active_manager := some "s" }
        (AgentRouting.mk "i" "r")).command.goto = "manager_" ++ "s"
    ∧ (router_node { messages := [], last_active_manager := some "s" }
        (AgentRouting.mk "i" "r")).llm_invoked = false :=
  ⟨rfl, by decide,
   (C3_sticky_routing_amended { messages := [], last_active_manager := some "s" }
      "s" (AgentRouting.mk "i" "r") (AgentRouting.mk "m" "q") rfl (by decide)).1,
   (C3_sticky_routing_amended { messages := [], last_active_manager := some "s" }
      "s" (AgentRouting.mk "i" "r") (AgentRouting.mk "m" "q") rfl (by decide)).2.2.2.1⟩

/-- C6 counterexample: the structured-output schema admits every one of
the four identifiers regardless of enablement.  With manager I disabled
(no Home Assistant token), `"i"` is still a schema-valid target, it is
not an enabled agent, and the router emits a goto to `manager_i`, a node
that `_build_graph` did not register. -/
theorem C6_counterexample_disabled_target_admitted :
    "i" ∈ AgentRouting.targets
    ∧ "i" ∉ enabled_agents (GraphConfig.mk false true true true)
    ∧ (router_node { messages := [], last_active_manager := none }
        (AgentRouting.mk "i" "controls lights")).command.goto = "manager_i"
    ∧ "manager_i" ∉ graph_nodes (GraphConfig.mk false true true true) := by
  refine ⟨by decide, by decide, by decide, by decide⟩

/-- C6 (amended): on the first turn (empty `last_active_manager`) the
router invokes the LLM constrained to a structured `{target_agent,
reason}` result whose `target_agent` is one of the four defined agent
identifiers `i`, `m`, `s`, `t` — not of the enabled subset — and emits a
goto to `manager_<target_agent>`; every enabled identifier is admitted by
the schema, but the schema does not exclude disabled managers. -/
theorem C6_first_turn_routing_amended (s : TeamHState) (routing : AgentRouting)
    (hfirst : s.last_active_manager = none) (hvalid : routing.valid) :
    (router_node s routing).llm_invoked = true
    ∧ (router_node s routing).command.goto = "manager_" ++ routing.target_agent
    ∧ (router_node s routing).command.update.routing_reason = some routing.reason
    ∧ (router_node s routing).command.update.current_agent
        = some (some routing.target_agent)
    ∧ routing.target_agent ∈ AgentRouting.targets
    ∧ (∀ cfg : GraphConfig, ∀ a ∈ enabled_agents cfg, a ∈ AgentRouting.targets) := by
  refine ⟨?_, ?_, ?_, ?_, hvalid, ?_⟩
  · simp [router_node, hfirst, router_llm_branch]
  · simp [router_node, hfirst, router_llm_branch]
  · simp [router_node, hfirst, router_llm_branch]
  · simp [router_node, hfirst, router_llm_branch]
  · intro cfg a ha
    rcases cfg with ⟨bi, bm, bs, bt⟩
    cases bi <;> cases bm <;> cases bs <;> cases bt <;>
      simp_all [enabled_agents, AgentRouting.targets] <;> tauto

theorem C6_witness :
    ({ messages := [] } : TeamHState).last_active_manager = none
    ∧ (AgentRouting.mk "m" "store a memory").valid
    ∧ (router_node { messages := [] } (AgentRouting.mk "m" "store a memory")).llm_invoked
        = true
    ∧ (router_node { messages := [] }
        (AgentRouting.mk "m" "store a memory")).command.goto = "manager_" ++ "m" :=
  ⟨rfl, by decide,
   (C6_first_turn_routing_amended { messages := [] }
      (AgentRouting.mk "m" "store a memory") rfl (by decide)).1,
   (C6_first_turn_routing_amended { messages := [] }
      (AgentRouting.mk "m" "store a memory") rfl (by decide)).2.1⟩

/-- C10: the router node never touches the message log, the handoff count
or the sticky pointer: both branches emit a `Command` whose update sets
only `routing_reason` and `current_agent`, so merging it into any state
leaves `messages`, `handoff_count` and `last_active_manager` unchanged. -/
theorem C10_router_frame (s : TeamHState) (llm_routing : AgentRouting) :
    (router_node s llm_routing).command.update.messages = []
    ∧ (router_node s llm_routing).command.update.handoff_count = none
    ∧ (router_node s llm_routing).command.update.last_active_manager = none
    ∧ (router_node s llm_routing).command.update.next_agent = none
    ∧ (router_node s llm_routing).command.update.user_id = none
    ∧ (merge s (router_node s llm_routing).command.update).messages = s.messages
    ∧ (merge s (router_node s llm_routing).command.update).handoff_count
        = s.handoff_count
    ∧ (merge s (router_node s llm_routing).command.update).last_active_manager
        = s.last_active_manager := by
  cases h : s.last_active_manager with
  | none =>
      simp [router_node, router_llm_branch, h, merge, add_messages]
  | some la =>
      by_cases hla : la = "" <;>
        simp [router_node, router_llm_branch, h, hla, merge, add_messages]

/-- C4 counterexample: a newly appended tool message containing the bare
token `HANDOFF_TO_I` — the claimed on-wire marker, without the square
brackets — is not detected, and the manager step ends at `END` instead of
selecting agent `i`. -/
theorem C4_counterexample_bare_token_not_detected :
    detect_handoff [Message.mk MsgType.tool "HANDOFF_TO_I please take over" "1" "c1"] 0
      = none
    ∧ (execute_manager_node { messages := [] } "m"
        [Message.mk MsgType.tool "HANDOFF_TO_I please take over" "1" "c1"] 5).goto
      = "END" := by
  refine ⟨by decide, by decide⟩

/-- C4 (amended): the on-wire marker the detector depends on is the
bracketed token `[HANDOFF_TO_X]` (X ∈ {I, M, S, T}), anywhere in the
content of a newly appended Tool message, checked in the fixed order
I, M, S, T within a message; each `handoff_to_manager_x` handler emits
`[HANDOFF_TO_X] {reason}`, which the detector maps to agent x whenever
the emitted content does not also contain a sentinel earlier in the check
order.  Non-tool messages and contents with no bracketed sentinel are
never detected. -/
theorem C4_bracketed_sentinel_contract (m : Message) (reason : String)
    (hmI : strContains (handoff_to_manager_m reason) "[HANDOFF_TO_I]" = false)
    (hsI : strContains (handoff_to_manager_s reason) "[HANDOFF_TO_I]" = false)
    (hsM : strContains (handoff_to_manager_s reason) "[HANDOFF_TO_M]" = false)
    (htI : strContains (handoff_to_manager_t reason) "[HANDOFF_TO_I]" = false)
    (htM : strContains (handoff_to_manager_t reason) "[HANDOFF_TO_M]" = false)
    (htS : strContains (handoff_to_manager_t reason) "[HANDOFF_TO_S]" = false) :
    msg_handoff { mtype := MsgType.tool, content := handoff_to_manager_i reason }
      = some "i"
    ∧ msg_handoff { mtype := MsgType.tool, content := handoff_to_manager_m reason }
      = some "m"
    ∧ msg_handoff { mtype := MsgType.tool, content := handoff_to_manager_s reason }
      = some "s"
    ∧ msg_handoff { mtype := MsgType.tool, content := handoff_to_manager_t reason }
      = some "t"
    ∧ (m.mtype = MsgType.tool → strContains m.content "[HANDOFF_TO_I]" = true →
        msg_handoff m = some "i")
    ∧ (m.mtype ≠ MsgType.tool → msg_handoff m = none)
    ∧ (strContains m.content "[HANDOFF_TO_I]" = false →
        strContains m.content "[HANDOFF_TO_M]" = false →
        strContains m.content "[HANDOFF_TO_S]" = false →
        strContains m.content "[HANDOFF_TO_T]" = false →
        msg_handoff m = none) := by
  have hI : strContains (handoff_to_manager_i reason) "[HANDOFF_TO_I]" = true :=
    strContains_lit "[HANDOFF_TO_I] " "[HANDOFF_TO_I]" " " reason (by decide)
  have hM : strContains (handoff_to_manager_m reason) "[HANDOFF_TO_M]" = true :=
    strContains_lit "[HANDOFF_TO_M] " "[HANDOFF_TO_M]" " " reason (by decide)
  have hS : strContains (handoff_to_manager_s reason) "[HANDOFF_TO_S]" = true :=
    strContains_lit "[HANDOFF_TO_S] " "[HANDOFF_TO_S]" " " reason (by decide)
  have hT : strContains (handoff_to_manager_t reason) "[HANDOFF_TO_T]" = true :=
    strContains_lit "[HANDOFF_TO_T] " "[HANDOFF_TO_T]" " " reason (by decide)
  refine ⟨?_, ?_, ?_, ?_, ?_, ?_, ?_⟩
  · simp [msg_handoff, hI]
  · simp [msg_handoff, hmI, hM]
  · simp [msg_handoff, hsI, hsM, hS]
  · simp [msg_handoff, htI, htM, htS, hT]
  · intro htool hc
    simp [msg_handoff, htool, hc]
  · intro htool
    simp [msg_handoff, htool]
  · intro h1 h2 h3 h4
    simp [msg_handoff, h1, h2, h3, h4]

theorem C4_witness :
    strContains (handoff_to_manager_m "need the lights") "[HANDOFF_TO_I]" = false
    ∧ msg_handoff
        (Message.mk MsgType.tool (handoff_to_manager_m "need the lights") "" "")
      = some "m" :=
  ⟨by decide,
   (C4_bracketed_sentinel_contract (Message.mk MsgType.ai "x" "1" "")
      "need the lights" (by decide) (by decide) (by decide) (by decide)
      (by decide) (by decide)).2.1⟩

theorem add_messages_of_fresh (ex new_partial : List Message)
    (hfresh : ∀ m ∈ new_partial, ∀ e ∈ ex, e.id ≠ m.id)
    (hnodup : new_partial.Pairwise (fun a b => a.id ≠ b.id)) :
    add_messages ex new_partial = ex ++ new_partial := by
  induction new_partial generalizing ex with
  | nil => simp [add_messages]
  | cons m rest ih =>
      have hany : (ex.any fun e => e.id = m.id) = false := by
        simp only [List.any_eq_false, decide_eq_true_eq]
        intro e he
        exact hfresh m (List.mem_cons_self m rest) e he
      have hfresh2 : ∀ m2 ∈ rest, ∀ e ∈ ex ++ [m], e.id ≠ m2.id := by
        intro m2 hm2 e he
        rcases List.mem_append.mp he with h | h
        · exact hfresh m2 (List.mem_cons_of_mem m hm2) e h
        · rw [List.mem_singleton.mp h]
          exact (List.pairwise_cons.mp hnodup).1 m2 hm2
      have hnodup2 : rest.Pairwise (fun a b => a.id ≠ b.id) :=
        (List.pairwise_cons.mp hnodup).2
      calc add_messages ex (m :: rest)
          = add_messages (ex ++ [m]) rest := by
            simp only [add_messages, List.foldl_cons, hany, Bool.false_eq_true,
              if_false]
        _ = (ex ++ [m]) ++ rest := ih (ex ++ [m]) hfresh2 hnodup2
        _ = ex ++ (m :: rest) := by simp

/-- C7: the state reducer is a pure function of the existing state and
the partial update: when the update carries messages with fresh ids (the
append case — replacement happens only when a node explicitly reuses an
existing id), the merged log is `existing ++ new_partial`, with no
reordering or deduplication; and exactly the scalar fields present in the
partial update are overwritten, the absent ones keeping their existing
values. -/
theorem C7_reducer_append_and_overwrite (s : TeamHState) (u : StateUpdate)
    (hfresh : ∀ m ∈ u.messages, ∀ e ∈ s.messages, e.id ≠ m.id)
    (hnodup : u.messages.Pairwise (fun a b => a.id ≠ b.id)) :
    (merge s u).messages = s.messages ++ u.messages
    ∧ (∀ v, u.handoff_count = some v → (merge s u).handoff_count = v)
    ∧ (u.handoff_count = none → (merge s u).handoff_count = s.handoff_count)
    ∧ (∀ v, u.routing_reason = some v → (merge s u).routing_reason = v)
    ∧ (u.routing_reason = none → (merge s u).routing_reason = s.routing_reason)
    ∧ (∀ v, u.current_agent = some v → (merge s u).current_agent = v)
    ∧ (u.current_agent = none → (merge s u).current_agent = s.current_agent)
    ∧ (∀ v, u.last_active_manager = some v → (merge s u).last_active_manager = v)
    ∧ (u.last_active_manager = none →
        (merge s u).last_active_manager = s.last_active_manager) := by
  refine ⟨add_messages_of_fresh s.messages u.messages hfresh hnodup,
    ?_, ?_, ?_, ?_, ?_, ?_, ?_, ?_⟩ <;>
    first
      | (intro v hv; simp [merge, hv])
      | (intro hv; simp [merge, hv])

theorem C7_witness :
    (∀ m ∈ [Message.mk MsgType.ai "yo" "2" ""],
      ∀ e ∈ [Message.mk MsgType.human "hi" "1" ""], e.id ≠ m.id)
    ∧ (merge { messages := [Message.mk MsgType.human "hi" "1" ""] }
        { messages := [Message.mk MsgType.ai "yo" "2" ""] }).messages
      = [Message.mk MsgType.human "hi" "1" ""] ++ [Message.mk MsgType.ai "yo" "2" ""] :=
  ⟨by decide,
   (C7_reducer_append_and_overwrite
      { messages := [Message.mk MsgType.human "hi" "1" ""] }
      { messages := [Message.mk MsgType.ai "yo" "2" ""] }
      (by decide) (by decide)).1⟩

/-- C8: a tool-handler exception is caught by
`ToolErrorHandlerMiddleware.wrap_tool_call` and converted into a tool
message answering the same tool-call id, whose content carries both the
tool name and the error text; a successful handler result passes through
unchanged, so the request is not aborted.  The `add_memory` tool handler
likewise converts a memory-store failure into a result string carrying
the error text. -/
theorem C8_tool_error_to_message (request : ToolCallRequest) (e : String) (r : Message) :
    (wrap_tool_call true request (HandlerOutcome.failure e)).mtype = MsgType.tool
    ∧ (wrap_tool_call true request (HandlerOutcome.failure e)).tool_call_id
        = request.call_id
    ∧ strContains (wrap_tool_call true request (HandlerOutcome.failure e)).content
        request.name = true
    ∧ strContains (wrap_tool_call true request (HandlerOutcome.failure e)).content e
        = true
    ∧ wrap_tool_call true request (HandlerOutcome.ok r) = r
    ∧ strContains (add_memory (Except.error e)) e = true := by
  refine ⟨rfl, rfl, ?_, ?_, rfl, ?_⟩
  · show strContains (error_message_template request.name e) request.name = true
    apply strContains_intro _ _ "⚠️ Tool \x27"
      ("\x27 encountered an error.\nError: "
        ++ (e ++ "\nPlease check your input and try again, or use a different approach."))
    simp [error_message_template, String.append_assoc]
  · show strContains (error_message_template request.name e) e = true
    apply strContains_intro _ _
      ("⚠️ Tool \x27" ++ (request.name ++ "\x27 encountered an error.\nError: "))
      "\nPlease check your input and try again, or use a different approach."
    simp [error_message_template, String.append_assoc]
  · show strContains ("❌ Error adding memory: " ++ e) e = true
    exact strContains_right _ _

/-- C9: with suspension always accompanied by at least one collected
interrupt, every SSE stream the generator produces (the `/chat/stream`
and `/chat/resume` endpoints both stream `generate_sse_stream`) ends with
exactly one terminal event: `done` carrying `messages_count`,
`current_agent` and `handoff_count` at normal completion, `interrupt`
when suspended, `error` on a surfaced failure. -/
theorem C9_single_terminal_event (thread_id : String) (o : StreamOutcome)
    (hsusp : ∀ interrupts, o = StreamOutcome.suspended interrupts → interrupts ≠ []) :
    (terminal_events thread_id o).length = 1
    ∧ (∀ n a h, o = StreamOutcome.completed n a h →
        terminal_events thread_id o = [SSEEvent.done n a h])
    ∧ (∀ i rest, o = StreamOutcome.suspended (i :: rest) →
        terminal_events thread_id o = [SSEEvent.interrupt i thread_id])
    ∧ (∀ e, o = StreamOutcome.failed e →
        terminal_events thread_id o = [SSEEvent.error e]) := by
  rcases o with ⟨n, a, h⟩ | ints | e
  · refine ⟨rfl, ?_, ?_, ?_⟩
    · intro _ _ _ heq; cases heq; rfl
    · intro _ _ heq; cases heq
    · intro _ heq; cases heq
  · rcases ints with _ | ⟨i, rest⟩
    · exact absurd rfl (hsusp [] rfl)
    · refine ⟨rfl, ?_, ?_, ?_⟩
      · intro _ _ _ heq; cases heq
      · intro i2 rest2 heq; cases heq; rfl
      · intro _ heq; cases heq
  · refine ⟨rfl, ?_, ?_, ?_⟩
    · intro _ _ _ heq; cases heq
    · intro _ _ heq; cases heq
    · intro e2 heq; cases heq; rfl

theorem C9_witness :
    (terminal_events "t1" (StreamOutcome.completed 7 (some "s") 0)).length = 1
    ∧ terminal_events "t1" (StreamOutcome.completed 7 (some "s") 0)
      = [SSEEvent.done 7 (some "s") 0] :=
  ⟨(C9_single_terminal_event "t1" (StreamOutcome.completed 7 (some "s") 0)
      (fun _ h => StreamOutcome.noConfusion h)).1,
   (C9_single_terminal_event "t1" (StreamOutcome.completed 7 (some "s") 0)
      (fun _ h => StreamOutcome.noConfusion h)).2.1 7 (some "s") 0 rfl⟩
